import Mathlib

/-!
Verification of the tracing bootstrap of `src/lib/tracing/index.js`.

The file shallowly embeds the module's data model and operations:
JavaScript strings become Lean `String`, optional / possibly-undefined
values become `Option`, the mutable nested `headers` object of the
exporter configuration is modelled with an explicit heap of header
objects addressed by `Nat` references, and a thrown `Error` is modelled
as an error value carried alongside the side effects that happened
before the throw (JavaScript side effects persist past a `throw`).
-/

set_option autoImplicit false

namespace Telemetry

/-- JavaScript truthiness of a possibly-undefined string: `undefined`
and the empty string are falsy, every other string is truthy. -/
def jsTruthy : Option String → Bool
  | none => false
  | some s => s ≠ ""

/-- JavaScript `a || b` on a possibly-undefined string `a`: the value of
`a` when truthy, otherwise the value of `b` (which may be undefined). -/
def jsOr (a b : Option String) : Option String :=
  if jsTruthy a then a else b

/-- JavaScript `a || b` on a possibly-undefined number `a` (as used for
`ratio || 0`): `a` when truthy (defined and nonzero), else `b`. -/
def jsOrNum (a : Option Nat) (b : Nat) : Nat :=
  match a with
  | none => b
  | some n => if n = 0 then b else n

/-- Does the first character list start with the second (the pattern)?
Models JavaScript `String.prototype.startsWith` on exploded strings. -/
def charsStart : List Char → List Char → Bool
  | _, [] => true
  | [], _ :: _ => false
  | c :: cs, p :: ps => c = p && charsStart cs ps

/-- Does the character list contain the pattern as a contiguous run?
Models JavaScript `String.prototype.match` with a literal pattern. -/
def charsHave (pat : List Char) : List Char → Bool
  | [] => pat.isEmpty
  | c :: cs => charsStart (c :: cs) pat || charsHave pat cs

/-- JavaScript `s.startsWith(pat)`. -/
def strStarts (s pat : String) : Bool :=
  charsStart s.data pat.data

/-- JavaScript `s.match(/pat/)` viewed as a Boolean: does `s` contain
`pat` as a substring? -/
def kindMatches (s pat : String) : Bool :=
  charsHave pat.data s.data

/-- `msg` contains `sub` as a contiguous substring. -/
def containsStr (msg sub : String) : Prop :=
  ∃ l r, msg.data = l ++ sub.data ++ r

/-! ## Configuration data model (`cds.env.requires.telemetry`) -/

/-- `tracing.sampler`: `\x7bkind, root, ratio\x7d`; `root` and the ratio may
be absent. The source's `ratio` field is embedded as `ratioValue`. -/
structure SamplerSpec where
  kind : String
  root : Option String
  ratioValue : Option Nat
  deriving DecidableEq

/-- One entry of `tracing.propagators`: either a plain string (a
built-in of `@opentelemetry/core`) or a `module`/`class` reference with
an opaque config payload. -/
inductive PropagatorEntry where
  | name (s : String)
  | custom (module cls : String) (config : Option String)
  deriving DecidableEq

/-- One entry of `instrumentations`: a `module`/`class` reference whose
config may carry `ignoreIncomingPaths` (the only config field the
tracing module reads, via the `http` entry). -/
structure InstrSpec where
  module : String
  cls : String
  ignoreIncomingPaths : Option (List String)
  deriving DecidableEq

/-- The caller-supplied part of `tracing.exporter.config` that credential
injection can touch: `url`, the nested `headers` object (here only its
`authorization` member), and `credentials`. -/
structure Headers where
  authorization : Option String
  deriving DecidableEq

structure CallerExporterConfig where
  url : Option String
  headers : Option Headers
  credentials : Option String
  deriving DecidableEq

/-- `tracing.exporter`: `\x7bmodule, class, config\x7d`. -/
structure ExporterSpec where
  module : String
  cls : String
  config : Option CallerExporterConfig
  deriving DecidableEq

/-- `tracing` section: sampler, ordered propagators, optional exporter. -/
structure TracingSection where
  sampler : SamplerSpec
  propagators : List PropagatorEntry
  exporter : Option ExporterSpec
  deriving DecidableEq

/-- The whole `cds.env.requires.telemetry` subtree the module reads. -/
structure TelemetryConfig where
  kind : String
  token_name : String
  instrumentations : List (String × InstrSpec)
  tracing : Option TracingSection
  deriving DecidableEq

/-- `instrumentations?.http?.config.ignoreIncomingPaths`. -/
def httpIgnorePaths (tel : TelemetryConfig) : Option (List String) :=
  (tel.instrumentations.lookup "http").bind InstrSpec.ignoreIncomingPaths

/-! ## External world (credentials, environment, loadable modules) -/

/-- `dynatrace.rest_apitoken` (deprecated credential shape). -/
structure RestApiToken where
  token : Option String
  deriving DecidableEq

/-- Dynatrace credential bundle as returned by
`getDynatraceCredentials()`: the `apiurl`, a field table for the
dynamically named token field `dynatrace[token_name]`, and the
deprecated `rest_apitoken` object. -/
structure DynCreds where
  apiurl : String
  fields : String → Option String
  rest_apitoken : Option RestApiToken

/-- Cloud Logging credential bundle as returned by
`getCloudLoggingCredentials()`. -/
structure ClcCreds where
  url : Option String
  credentials : Option String
  deriving DecidableEq

/-- Sampling decisions of `@opentelemetry/sdk-trace-base`. -/
inductive SamplingDecision where
  | NOT_RECORD
  | RECORD
  | RECORD_AND_SAMPLED
  deriving DecidableEq

/-- The result object returned by `shouldSample`. -/
structure SamplingResult where
  decision : SamplingDecision
  deriving DecidableEq

/-- A span-start request as seen by `shouldSample`; only the attribute
bag is inspected by this module, the remaining arguments are passed
through to the delegate unchanged. -/
structure SpanStartRequest where
  attributes : String → Option String

/-- A sampler's behavior: its `shouldSample` function. -/
abbrev Sampler : Type := SpanStartRequest → SamplingResult

/-- Description of the delegate sampler built from the configuration. -/
inductive SamplerDesc where
  | parentBased (rootKind : String) (rootRatioValue : Nat)
  | plain (kind : String)
  deriving DecidableEq

/-- Description of a propagator placed into the composite. -/
inductive PropDesc where
  | builtin (name : String)
  | custom (module cls : String) (config : Option String)
  deriving DecidableEq

/-- A propagation carrier: a finite map from context keys to values. -/
abbrev Carrier : Type := String → Option String

/-- Everything external the module consults: credential helpers,
process environment variables, the class catalogs of loadable modules,
and the behavior of externally constructed samplers and propagators. -/
structure Env where
  dynatrace : Option DynCreds
  clc : Option ClcCreds
  nodeEnv : Option String
  dtNodePreload : Option String
  baseSampler : String → Bool
  coreHas : String → Bool
  modules : String → String → Bool
  localExporter : String → Bool
  samplerImpl : SamplerDesc → Sampler
  propImpl : PropDesc → Carrier → Carrier

/-! ## `_getSampler` -/

/-- The `_shouldSample` closure: with no usable `ignoreIncomingPaths`
always `true`; otherwise `true` when `http.originalUrl` is falsy
(absent or empty), else the negation of "some configured prefix starts
the url". -/
def _shouldSample (ignoreIncomingPaths : Option (List String)) : SpanStartRequest → Bool :=
  match ignoreIncomingPaths with
  | none => fun _ => true
  | some ps =>
    if ps.isEmpty then fun _ => true
    else fun req =>
      match req.attributes "http.originalUrl" with
      | none => true
      | some u => if u = "" then true else ! ps.any (fun p => strStarts u p)

/-- `_filterSampler`: deny with `NOT_RECORD` when the filter refuses,
otherwise return the delegate's result unchanged. -/
def _filterSampler (f : SpanStartRequest → Bool) (parent : Sampler) : Sampler :=
  fun req =>
    if f req = false then ⟨SamplingDecision.NOT_RECORD⟩ else parent req

/-- Construction and validation of the delegate sampler from
`tracing.sampler`: unknown `kind` or (for `ParentBasedSampler`) unknown
`root` is an error naming the unknown value; an absent `root` indexes
the catalog with `undefined`. -/
def _getSamplerDesc (env : Env) (s : SamplerSpec) : Except String SamplerDesc :=
  if env.baseSampler s.kind = false then .error ("Unknown sampler " ++ s.kind)
  else if s.kind = "ParentBasedSampler" then
    match s.root with
    | none => .error ("Unknown sampler " ++ "undefined")
    | some r =>
      if env.baseSampler r = false then .error ("Unknown sampler " ++ r)
      else .ok (.parentBased r (jsOrNum s.ratioValue 0))
  else .ok (.plain s.kind)

/-- `_getSampler`: the filter sampler wrapping the configured delegate. -/
def _getSampler (env : Env) (tel : TelemetryConfig) (s : SamplerSpec) : Except String Sampler :=
  (_getSamplerDesc env s).map fun d =>
    _filterSampler (_shouldSample (httpIgnorePaths tel)) (env.samplerImpl d)

/-! ## `_getPropagator` -/

/-- Resolution of one entry of the propagator loop body: a string entry
is looked up in `@opentelemetry/core`, a `module`/`class` entry in the
dynamically loaded module; an unknown name or class is an error naming
it and the module. -/
def _resolvePropagator (env : Env) : PropagatorEntry → Except String PropDesc
  | .name s =>
    if env.coreHas s = false then
      .error ("Unknown propagator \"" ++ s ++ "\" in module \"" ++ "@opentelemetry/core" ++ "\"")
    else .ok (.builtin s)
  | .custom m c cfg =>
    if env.modules m c = false then
      .error ("Unknown propagator \"" ++ c ++ "\" in module \"" ++ m ++ "\"")
    else .ok (.custom m c cfg)

/-- `_getPropagator`: resolve each entry in declared order, stopping at
the first failure; the list of descriptions is the `propagators` array
handed to the `CompositePropagator`. -/
def _getPropagator (env : Env) : List PropagatorEntry → Except String (List PropDesc)
  | [] => .ok []
  | e :: rest =>
    match _resolvePropagator env e with
    | .error m => .error m
    | .ok d =>
      match _getPropagator env rest with
      | .error m => .error m
      | .ok ds => .ok (d :: ds)

/-- The description an entry resolves to when its lookup succeeds. -/
def descOf : PropagatorEntry → PropDesc
  | .name s => .builtin s
  | .custom m c cfg => .custom m c cfg

/-- Modelled from the spec: the external `CompositePropagator` of
`@opentelemetry/core` applies its member propagators to the carrier in
list order, so a later member's write to a key is the final value
("last-applied-wins per the declared order"). -/
def compositeInject (env : Env) (ds : List PropDesc) (c : Carrier) : Carrier :=
  ds.foldl (fun c d => env.propImpl d c) c

/-! ## `_getInstrumentations` -/

/-- Resolution of one instrumentation entry: the class must exist in the
loaded module, else an error naming class and module. -/
def _resolveInstrumentation (env : Env) (each : InstrSpec) : Except String (String × String) :=
  if env.modules each.module each.cls = false then
    .error ("Unknown instrumentation \"" ++ each.cls ++ "\" in module \"" ++ each.module ++ "\"")
  else .ok (each.module, each.cls)

/-- `_getInstrumentations`: resolve every configured instrumentation
(`Object.values` order), stopping at the first failure. -/
def _getInstrumentations (env : Env) : List (String × InstrSpec) → Except String (List (String × String))
  | [] => .ok []
  | (_, each) :: rest =>
    match _resolveInstrumentation env each with
    | .error m => .error m
    | .ok d =>
      match _getInstrumentations env rest with
      | .error m => .error m
      | .ok ds => .ok (d :: ds)

/-! ## `_getExporter`

The exporter config is mutable JavaScript state: `tracingConfig` is a
shallow copy of the caller's `exporterSpec.config`, so the nested
`headers` object is shared between the two. We model header objects in
a heap (`List Headers`) addressed by `Nat`, and a config object holds a
reference into that heap. -/

/-- A heap of header objects. -/
abbrev Heap : Type := List Headers

/-- A config object as the JavaScript engine sees it: plain values for
`url` and `credentials`, a heap reference for the nested `headers`. -/
structure ConfigObj where
  url : Option String
  headers : Option Nat
  credentials : Option String
  deriving DecidableEq

/-- The value-level reading of a config object: `headers` dereferenced
through the heap. -/
structure EffConfig where
  url : Option String
  headers : Option Headers
  credentials : Option String
  deriving DecidableEq

def readConfig (o : ConfigObj) (h : Heap) : EffConfig :=
  ⟨o.url, o.headers.bind fun i => (h : List Headers)[i]?, o.credentials⟩

/-- Materialize the caller's `exporterSpec.config` as an object plus the
heap holding its nested `headers` object (if any). -/
def initCallerConfig (c : Option CallerExporterConfig) : ConfigObj × Heap :=
  match c with
  | none => (⟨none, none, none⟩, [])
  | some cc =>
    match cc.headers with
    | none => (⟨cc.url, none, cc.credentials⟩, [])
    | some h => (⟨cc.url, some 0, cc.credentials⟩, [h])

/-- The error thrown when no Dynatrace token field is usable. -/
def dynTokenErr (tokenName : String) : String :=
  "Neither \"" ++ tokenName ++ "\" nor deprecated \"" ++ "rest_apitoken.token" ++
    "\" found in Dynatrace credentials"

/-- `tracingConfig.url ??= dynatrace.apiurl + "/v2/otlp/v1/traces"`. -/
def dynUrlAssign (dyn : DynCreds) (obj : ConfigObj) : ConfigObj :=
  if obj.url.isNone then { obj with url := some (dyn.apiurl ++ "/v2/otlp/v1/traces") }
  else obj

/-- `tracingConfig.headers ??= \x7b\x7d`: when the config has no headers
object yet, allocate a fresh empty one on the heap. -/
def dynHeadersAlloc (obj : ConfigObj) (heap : Heap) : ConfigObj × Heap :=
  match obj.headers with
  | none => ({ obj with headers := some heap.length }, heap ++ [⟨none⟩])
  | some _ => (obj, heap)

/-- `tracingConfig.headers.authorization ??= "Api-Token " + token`:
write through the heap reference (which may be the caller's own headers
object) when `authorization` is unset. -/
def dynAuthWrite (t : String) (obj : ConfigObj) (heap : Heap) : Heap :=
  match obj.headers with
  | none => heap
  | some i =>
    match heap[i]? with
    | none => heap
    | some h =>
      if h.authorization.isNone then
        heap.set i { h with authorization := some ("Api-Token " ++ t) }
      else heap

/-- The Dynatrace credential-injection block of `_getExporter`,
executed when credentials are present and the telemetry kind matches
`/dynatrace/`: `url ??=`, `headers ??= \x7b\x7d`, token lookup
`dynatrace[token_name] || dynatrace.rest_apitoken?.token`, throw when
the token is falsy, then `headers.authorization ??=`. -/
def _dynatraceStep (env : Env) (kind tokenName : String) (obj : ConfigObj) (heap : Heap) :
    ConfigObj × Heap × Option String :=
  match env.dynatrace with
  | none => (obj, heap, none)
  | some dyn =>
    if kindMatches kind "dynatrace" = false then (obj, heap, none)
    else
      let p := dynHeadersAlloc (dynUrlAssign dyn obj) heap
      match jsOr (dyn.fields tokenName) (dyn.rest_apitoken.bind RestApiToken.token) with
      | none => (p.1, p.2, some (dynTokenErr tokenName))
      | some t =>
        if t = "" then (p.1, p.2, some (dynTokenErr tokenName))
        else (p.1, dynAuthWrite t p.1 p.2, none)

/-- `tracingConfig.url ??= clc.url`. -/
def clcUrlAssign (clc : ClcCreds) (obj : ConfigObj) : ConfigObj :=
  if obj.url.isNone then { obj with url := clc.url } else obj

/-- `tracingConfig.credentials ??= clc.credentials`. -/
def clcCredAssign (clc : ClcCreds) (obj : ConfigObj) : ConfigObj :=
  if obj.credentials.isNone then { obj with credentials := clc.credentials } else obj

/-- The Cloud Logging credential-injection block of `_getExporter`,
executed when credentials are present and the kind matches
`/cloud-logging/`: `url ??= clc.url`, `credentials ??= clc.credentials`. -/
def _clcStep (env : Env) (kind : String) (obj : ConfigObj) : ConfigObj :=
  match env.clc with
  | none => obj
  | some clc =>
    if kindMatches kind "cloud-logging" = false then obj
    else clcCredAssign clc (clcUrlAssign clc obj)

/-- The record of one `_getExporter` run: the error (if thrown), the
`tracingConfig` object handed to the exporter constructor, the heap
after the run, and the caller's original object with the heap before
the run (for mutation claims). -/
structure ExpRun where
  err : Option String
  obj : ConfigObj
  heapAfter : Heap
  origObj : ConfigObj
  heapBefore : Heap
  built : Bool

/-- `_getExporter`: resolve the exporter class (the first-party module
name short-circuits to the local exporter catalog), shallow-copy the
caller config, run the Dynatrace and Cloud Logging injection blocks,
and construct the exporter with the final config. -/
def _getExporter (env : Env) (kind tokenName : String) (spec : ExporterSpec) : ExpRun :=
  let init := initCallerConfig spec.config
  let orig := init.1
  let heap0 := init.2
  let hasClass :=
    if spec.module = "@cap-js/telemetry" then env.localExporter spec.cls
    else env.modules spec.module spec.cls
  if hasClass = false then
    { err := some ("Unknown tracing exporter \"" ++ spec.cls ++ "\" in module \"" ++ spec.module ++ "\""),
      obj := orig, heapAfter := heap0, origObj := orig, heapBefore := heap0, built := false }
  else
    let step := _dynatraceStep env kind tokenName orig heap0
    match step.2.2 with
    | some e =>
      { err := some e, obj := step.1, heapAfter := step.2.1,
        origObj := orig, heapBefore := heap0, built := false }
    | none =>
      let obj2 := _clcStep env kind step.1
      { err := none, obj := obj2, heapAfter := step.2.1,
        origObj := orig, heapBefore := heap0, built := true }

/-- The effective exporter configuration passed to the constructor. -/
def effConfig (r : ExpRun) : EffConfig :=
  readConfig r.obj r.heapAfter

/-- The caller's original config, read before the run. -/
def effOrigBefore (r : ExpRun) : EffConfig :=
  readConfig r.origObj r.heapBefore

/-- The caller's original config, read after the run. -/
def effOrigAfter (r : ExpRun) : EffConfig :=
  readConfig r.origObj r.heapAfter

/-- The caller's declared `url`. -/
def callerUrl (c : Option CallerExporterConfig) : Option String :=
  c.bind CallerExporterConfig.url

/-- The caller's declared `headers` object. -/
def callerHeaders (c : Option CallerExporterConfig) : Option Headers :=
  c.bind CallerExporterConfig.headers

/-- The caller's declared `headers.authorization`. -/
def callerAuth (c : Option CallerExporterConfig) : Option String :=
  (c.bind CallerExporterConfig.headers).bind Headers.authorization

/-- The caller's declared `credentials`. -/
def callerCreds (c : Option CallerExporterConfig) : Option String :=
  c.bind CallerExporterConfig.credentials

/-! ## The bootstrap (`module.exports`)

The exported function, as a state machine over the process-wide tracer
provider singleton.  `ProcState.delegate` is the provider registered as
the global delegate (its id), `ProcState.created` counts providers ever
constructed in the process.  Everything observable a run does is
recorded in `Effects`; a thrown error aborts the remaining steps but
keeps the effects and state changes made before the throw. -/

inductive ProcKind where
  | batched
  | immediate
  deriving DecidableEq

structure Effects where
  warnings : Nat
  samplerBuilt : Bool
  propagatorBuilt : Bool
  instrumentationsBuilt : Bool
  providersCreated : Nat
  processors : List ProcKind
  exporterBuilt : Bool
  tracerSet : Bool
  deriving DecidableEq

/-- No observable effects. -/
def noEffects : Effects :=
  { warnings := 0, samplerBuilt := false, propagatorBuilt := false,
    instrumentationsBuilt := false, providersCreated := 0, processors := [],
    exporterBuilt := false, tracerSet := false }

structure ProcState where
  delegate : Option Nat
  created : Nat
  deriving DecidableEq

/-- The result of one bootstrap invocation. -/
structure BootRun where
  state : ProcState
  effects : Effects
  err : Option String
  deriving DecidableEq

/-- The second half of the bootstrap, after the provider is available:
when the Dynatrace OneAgent marker is set and the kind matches
`/dynatrace/`, skip the exporter entirely (no processor); otherwise
build the exporter and attach exactly one processor — batched when
`NODE_ENV === 'production'`, else simple (immediate).  Finally the
tracer handle is exposed. -/
def _processorPhase (env : Env) (tel : TelemetryConfig) (spec : ExporterSpec)
    (st : ProcState) (eff : Effects) : BootRun :=
  if (jsTruthy env.dtNodePreload && kindMatches tel.kind "dynatrace") = true then
    ⟨st, { eff with tracerSet := true }, none⟩
  else
    match (_getExporter env tel.kind tel.token_name spec).err with
    | some m => ⟨st, eff, some m⟩
    | none =>
      let p := if env.nodeEnv = some "production" then ProcKind.batched else ProcKind.immediate
      ⟨st, { eff with exporterBuilt := true, processors := [p], tracerSet := true }, none⟩

/-- The exported bootstrap function.  Returns immediately when
`tracing?.exporter` is absent.  When no global delegate exists yet, the
sampler is built (its failure precedes provider construction), a new
provider is constructed, registration with the propagator makes it the
global delegate (a propagator failure precedes registration), and the
instrumentations are registered; when a delegate already exists it is
reused as-is and a warning is logged.  Then the processor phase runs. -/
def bootstrap (env : Env) (tel : TelemetryConfig) (st : ProcState) : BootRun :=
  match tel.tracing with
  | none => ⟨st, noEffects, none⟩
  | some tr =>
    match tr.exporter with
    | none => ⟨st, noEffects, none⟩
    | some spec =>
      match st.delegate with
      | some _ =>
        _processorPhase env tel spec st { noEffects with warnings := 1 }
      | none =>
        match _getSamplerDesc env tr.sampler with
        | .error m => ⟨st, noEffects, some m⟩
        | .ok _ =>
          let eff1 : Effects := { noEffects with samplerBuilt := true, providersCreated := 1 }
          let st1 : ProcState := { st with created := st.created + 1 }
          match _getPropagator env tr.propagators with
          | .error m => ⟨st1, eff1, some m⟩
          | .ok _ =>
            let eff2 : Effects := { eff1 with propagatorBuilt := true }
            let st2 : ProcState := { st1 with delegate := some st.created }
            match _getInstrumentations env tel.instrumentations with
            | .error m => ⟨st2, eff2, some m⟩
            | .ok _ =>
              _processorPhase env tel spec st2 { eff2 with instrumentationsBuilt := true }

/-! ## Concrete fixtures used by witnesses -/

/-- An environment where every capability resolves and no credentials
or environment markers are present. -/
def envDefault : Env :=
  { dynatrace := none, clc := none, nodeEnv := none, dtNodePreload := none,
    baseSampler := fun _ => true, coreHas := fun _ => true,
    modules := fun _ _ => true, localExporter := fun _ => true,
    samplerImpl := fun _ _ => ⟨SamplingDecision.RECORD⟩,
    propImpl := fun _ c => c }

/-- An environment where no capability resolves. -/
def envEmptyCatalog : Env :=
  { dynatrace := none, clc := none, nodeEnv := none, dtNodePreload := none,
    baseSampler := fun _ => false, coreHas := fun _ => false,
    modules := fun _ _ => false, localExporter := fun _ => false,
    samplerImpl := fun _ _ => ⟨SamplingDecision.RECORD⟩,
    propImpl := fun _ c => c }

def specFull : ExporterSpec :=
  ⟨"@opentelemetry/exporter-trace-otlp-http", "OTLPTraceExporter", none⟩

def trFull : TracingSection :=
  ⟨⟨"AlwaysOnSampler", none, none⟩, [PropagatorEntry.name "W3CTraceContextPropagator"], some specFull⟩

def telFull : TelemetryConfig :=
  ⟨"telemetry-to-console", "apitoken", [], some trFull⟩

/-- A configuration whose `tracing` section has no `exporter`. -/
def telNoExporter : TelemetryConfig :=
  ⟨"telemetry-to-console", "apitoken", [], none⟩

/-- Dynatrace credentials holding a token under the configured name. -/
def dynFull : DynCreds :=
  ⟨"https://apm.example.com", fun n => if n = "apitoken" then some "secret" else none, none⟩

/-- Dynatrace credentials with no usable token field at all. -/
def dynNoToken : DynCreds :=
  ⟨"https://apm.example.com", fun _ => none, none⟩

def envDyn : Env := { envDefault with dynatrace := some dynFull }

def envDynNoToken : Env := { envDefault with dynatrace := some dynNoToken }

/-- An exporter spec whose caller config sets `headers.authorization`
explicitly (and nothing else). -/
def specAuthSet : ExporterSpec :=
  ⟨"@opentelemetry/exporter-trace-otlp-http", "OTLPTraceExporter",
    some ⟨none, some ⟨some "Basic abc"⟩, none⟩⟩

/-- An exporter spec whose caller config supplies a headers object with
`authorization` unset. -/
def specEmptyHeaders : ExporterSpec :=
  ⟨"@opentelemetry/exporter-trace-otlp-http", "OTLPTraceExporter",
    some ⟨none, some ⟨none⟩, none⟩⟩

/-- A span-start request whose `http.originalUrl` attribute is present
but holds the empty string. -/
def reqEmptyUrl : SpanStartRequest :=
  ⟨fun k => if k = "http.originalUrl" then some "" else none⟩

/-- The (object, heap) pair after the `url ??=` and `headers ??=`
assignments of the Dynatrace block, starting from the caller config. -/
def dynAlloc (dyn : DynCreds) (c : Option CallerExporterConfig) : ConfigObj × Heap :=
  dynHeadersAlloc (dynUrlAssign dyn (initCallerConfig c).1) (initCallerConfig c).2

/-! ## String-containment lemmas -/

theorem strData_append (a b : String) : (a ++ b).data = a.data ++ b.data := by
  cases a; cases b; rfl

theorem containsStr_right (a b : String) : containsStr (a ++ b) b :=
  ⟨a.data, [], by simp [strData_append]⟩

theorem containsStr_extend (a c : String) {b : String} (h : containsStr a b) :
    containsStr (a ++ c) b := by
  obtain ⟨l, r, hl⟩ := h
  exact ⟨l, r ++ c.data, by simp [strData_append, hl]⟩

/-! ## Claim theorems -/

/-- C10: when the configuration has no `tracing.exporter` entry, the
bootstrap returns immediately and changes nothing: the process state is
untouched, no effect is recorded (no provider, sampler, propagator,
instrumentation, exporter, processor or tracer handle), and no error is
raised. -/
theorem C10_no_exporter_noop (env : Env) (tel : TelemetryConfig) (st : ProcState)
    (h : tel.tracing = none ∨ ∃ tr, tel.tracing = some tr ∧ tr.exporter = none) :
    bootstrap env tel st = ⟨st, noEffects, none⟩ := by
  rcases h with h | ⟨tr, htr, hex⟩
  · simp [bootstrap, h]
  · simp [bootstrap, htr, hex]

theorem C10_no_exporter_noop_witness :
    bootstrap envDefault telNoExporter ⟨none, 0⟩ = ⟨⟨none, 0⟩, noEffects, none⟩ :=
  C10_no_exporter_noop envDefault telNoExporter ⟨none, 0⟩ (Or.inl rfl)

/-- C2 counterexample: with ignore list `[""]` and a request whose
`http.originalUrl` attribute is present with value `""` (which starts
with the configured prefix `""`), the claim demands `NOT_RECORD`, but
the code treats the empty string as absent (JavaScript truthiness) and
returns the delegate's decision unchanged. -/
theorem C2_counterexample :
    reqEmptyUrl.attributes "http.originalUrl" = some "" ∧
    strStarts "" "" = true ∧
    _filterSampler (_shouldSample (some [""]))
        (fun _ => ⟨SamplingDecision.RECORD_AND_SAMPLED⟩) reqEmptyUrl =
      ⟨SamplingDecision.RECORD_AND_SAMPLED⟩ := by
  refine ⟨rfl, rfl, ?_⟩
  rfl

/-- C2 (amended): the assembled composite sampler forces `NOT_RECORD`
exactly when the request's `http.originalUrl` attribute is present with
a non-empty value that starts with at least one configured ignore
prefix; on such a denial the result is `NOT_RECORD` for every delegate
(the delegate is never consulted), and in every other case (attribute
absent or empty, no prefix matches, ignore list empty or absent) the
delegate's decision is returned unchanged. -/
theorem C2_amended (ips : Option (List String)) (req : SpanStartRequest) :
    (_shouldSample ips req = false ↔
      ∃ ps u, ips = some ps ∧ req.attributes "http.originalUrl" = some u ∧ u ≠ "" ∧
        ps.any (fun p => strStarts u p) = true) ∧
    (∀ d : Sampler, _shouldSample ips req = false →
      _filterSampler (_shouldSample ips) d req = ⟨SamplingDecision.NOT_RECORD⟩) ∧
    (∀ d : Sampler, _shouldSample ips req = true →
      _filterSampler (_shouldSample ips) d req = d req) := by
  refine ⟨?_, ?_, ?_⟩
  · cases ips with
    | none => simp [_shouldSample]
    | some ps =>
      by_cases hps : ps.isEmpty
      · have : ps = [] := List.isEmpty_iff.mp hps
        subst this
        simp [_shouldSample]
      · cases hu : req.attributes "http.originalUrl" with
        | none => simp [_shouldSample, hps, hu]
        | some u =>
          by_cases hue : u = ""
          · subst hue
            simp [_shouldSample, hps, hu]
          · simp [_shouldSample, hps, hu, hue]
  · intro d h
    simp [_filterSampler, h]
  · intro d h
    simp [_filterSampler, h]

theorem C2_amended_witness :
    _filterSampler (_shouldSample (some ["/health"]))
        (fun _ => ⟨SamplingDecision.RECORD⟩)
        ⟨fun k => if k = "http.originalUrl" then some "/health/live" else none⟩ =
      ⟨SamplingDecision.NOT_RECORD⟩ :=
  (C2_amended (some ["/health"])
      ⟨fun k => if k = "http.originalUrl" then some "/health/live" else none⟩).2.1
    (fun _ => ⟨SamplingDecision.RECORD⟩) (by decide)

/-- C7: construction with an unknown sampler kind, unknown root sampler
kind, unknown built-in propagator name, unknown custom propagator or
instrumentation class, or unknown exporter class fails with an error
whose message contains the offending kind or class string and, for
module-loaded classes, the module name. -/
theorem C7_unknown_errors (env : Env) (kind tokenName : String) :
    (∀ s : SamplerSpec, env.baseSampler s.kind = false →
      ∃ msg, _getSamplerDesc env s = .error msg ∧ containsStr msg s.kind) ∧
    (∀ (s : SamplerSpec) (r : String), env.baseSampler s.kind = true →
      s.kind = "ParentBasedSampler" → s.root = some r → env.baseSampler r = false →
      ∃ msg, _getSamplerDesc env s = .error msg ∧ containsStr msg r) ∧
    (∀ n : String, env.coreHas n = false →
      ∃ msg, _resolvePropagator env (.name n) = .error msg ∧
        containsStr msg n ∧ containsStr msg "@opentelemetry/core") ∧
    (∀ (m c : String) (cfg : Option String), env.modules m c = false →
      ∃ msg, _resolvePropagator env (.custom m c cfg) = .error msg ∧
        containsStr msg c ∧ containsStr msg m) ∧
    (∀ i : InstrSpec, env.modules i.module i.cls = false →
      ∃ msg, _resolveInstrumentation env i = .error msg ∧
        containsStr msg i.cls ∧ containsStr msg i.module) ∧
    (∀ spec : ExporterSpec,
      (if spec.module = "@cap-js/telemetry" then env.localExporter spec.cls
        else env.modules spec.module spec.cls) = false →
      ∃ msg, (_getExporter env kind tokenName spec).err = some msg ∧
        containsStr msg spec.cls ∧ containsStr msg spec.module) := by
  refine ⟨?_, ?_, ?_, ?_, ?_, ?_⟩
  · intro s h
    refine ⟨"Unknown sampler " ++ s.kind, ?_, containsStr_right _ _⟩
    simp [_getSamplerDesc, h]
  · intro s r hk hpb hr hrf
    refine ⟨"Unknown sampler " ++ r, ?_, containsStr_right _ _⟩
    have hk2 : env.baseSampler "ParentBasedSampler" = true := hpb ▸ hk
    simp [_getSamplerDesc, hk2, hpb, hr, hrf]
  · intro n h
    refine ⟨"Unknown propagator \"" ++ n ++ "\" in module \"" ++ "@opentelemetry/core" ++ "\"", ?_, ?_, ?_⟩
    · simp [_resolvePropagator, h]
    · exact containsStr_extend _ _ (containsStr_extend _ _ (containsStr_extend _ _ (containsStr_right "Unknown propagator \"" n)))
    · exact containsStr_extend _ _ (containsStr_right _ "@opentelemetry/core")
  · intro m c cfg h
    refine ⟨"Unknown propagator \"" ++ c ++ "\" in module \"" ++ m ++ "\"", ?_, ?_, ?_⟩
    · simp [_resolvePropagator, h]
    · exact containsStr_extend _ _ (containsStr_extend _ _ (containsStr_extend _ _ (containsStr_right "Unknown propagator \"" c)))
    · exact containsStr_extend _ _ (containsStr_right _ m)
  · intro i h
    refine ⟨"Unknown instrumentation \"" ++ i.cls ++ "\" in module \"" ++ i.module ++ "\"", ?_, ?_, ?_⟩
    · simp [_resolveInstrumentation, h]
    · exact containsStr_extend _ _ (containsStr_extend _ _ (containsStr_extend _ _ (containsStr_right "Unknown instrumentation \"" i.cls)))
    · exact containsStr_extend _ _ (containsStr_right _ i.module)
  · intro spec h
    refine ⟨"Unknown tracing exporter \"" ++ spec.cls ++ "\" in module \"" ++ spec.module ++ "\"", ?_, ?_, ?_⟩
    · simp [_getExporter, h]
    · exact containsStr_extend _ _ (containsStr_extend _ _ (containsStr_extend _ _ (containsStr_right "Unknown tracing exporter \"" spec.cls)))
    · exact containsStr_extend _ _ (containsStr_right _ spec.module)

theorem C7_unknown_errors_witness :
    ∃ msg, _getSamplerDesc envEmptyCatalog ⟨"FancySampler", none, none⟩ = .error msg ∧
      containsStr msg "FancySampler" :=
  (C7_unknown_errors envEmptyCatalog "telemetry-to-console" "apitoken").1
    ⟨"FancySampler", none, none⟩ rfl

theorem resolvePropagator_ok (env : Env) (e : PropagatorEntry) (d : PropDesc)
    (h : _resolvePropagator env e = .ok d) : d = descOf e := by
  cases e with
  | name s =>
    by_cases hc : env.coreHas s = false
    · simp [_resolvePropagator, hc] at h
    · simp [_resolvePropagator, hc, descOf] at h
      exact h.symm
  | custom m c cfg =>
    by_cases hc : env.modules m c = false
    · simp [_resolvePropagator, hc] at h
    · simp [_resolvePropagator, hc, descOf] at h
      exact h.symm

theorem getPropagator_ok (env : Env) (entries : List PropagatorEntry) (ds : List PropDesc)
    (h : _getPropagator env entries = .ok ds) : ds = entries.map descOf := by
  induction entries generalizing ds with
  | nil =>
    simp [_getPropagator] at h
    simp [h.symm]
  | cons e rest ih =>
    rw [_getPropagator] at h
    cases hr : _resolvePropagator env e with
    | error m => rw [hr] at h; exact absurd h (by simp)
    | ok d =>
      rw [hr] at h
      cases hrest : _getPropagator env rest with
      | error m => rw [hrest] at h; exact absurd h (by simp)
      | ok ds2 =>
        rw [hrest] at h
        simp only [Except.ok.injEq] at h
        rw [← h, List.map_cons, ← ih ds2 hrest, resolvePropagator_ok env e d hr]

/-- C8: when propagator assembly succeeds, the composite contains
exactly the propagators constructed from the declared entries, in the
declared order; consequently (with the composite's apply-in-order
semantics, modelled from the spec) for two entries A then B able to
write the same context key, B's write is the final value produced by
the composite. -/
theorem C8_propagator_order (env : Env) (entries : List PropagatorEntry) (ds : List PropDesc)
    (h : _getPropagator env entries = .ok ds) :
    ds = entries.map descOf ∧
    (∀ (xs : List PropDesc) (b : PropDesc) (c : Carrier),
      compositeInject env (xs ++ [b]) c = env.propImpl b (compositeInject env xs c)) ∧
    (∀ (dA dB : PropDesc) (c : Carrier) (k v : String),
      (∀ c2 : Carrier, env.propImpl dB c2 k = some v) →
      compositeInject env [dA, dB] c k = some v) := by
  refine ⟨getPropagator_ok env entries ds h, ?_, ?_⟩
  · intro xs b c
    simp [compositeInject, List.foldl_append]
  · intro dA dB c k v hw
    simpa [compositeInject] using hw (env.propImpl dA c)

theorem clcUrlAssign_url_of_some (clc : ClcCreds) (obj : ConfigObj) (u : String)
    (h : obj.url = some u) : (clcUrlAssign clc obj).url = some u := by
  simp [clcUrlAssign, h]

theorem clcUrlAssign_headers (clc : ClcCreds) (obj : ConfigObj) :
    (clcUrlAssign clc obj).headers = obj.headers := by
  unfold clcUrlAssign
  split <;> rfl

theorem clcUrlAssign_credentials (clc : ClcCreds) (obj : ConfigObj) :
    (clcUrlAssign clc obj).credentials = obj.credentials := by
  unfold clcUrlAssign
  split <;> rfl

theorem clcCredAssign_url (clc : ClcCreds) (obj : ConfigObj) :
    (clcCredAssign clc obj).url = obj.url := by
  unfold clcCredAssign
  split <;> rfl

theorem clcCredAssign_headers (clc : ClcCreds) (obj : ConfigObj) :
    (clcCredAssign clc obj).headers = obj.headers := by
  unfold clcCredAssign
  split <;> rfl

theorem clcCredAssign_credentials_of_some (clc : ClcCreds) (obj : ConfigObj) (c : String)
    (h : obj.credentials = some c) : (clcCredAssign clc obj).credentials = some c := by
  simp [clcCredAssign, h]

theorem clcStep_url_of_some (env : Env) (kind : String) (obj : ConfigObj) (u : String)
    (h : obj.url = some u) : (_clcStep env kind obj).url = some u := by
  unfold _clcStep
  split
  · exact h
  · split
    · exact h
    · rw [clcCredAssign_url]
      exact clcUrlAssign_url_of_some _ obj u h

theorem clcStep_headers (env : Env) (kind : String) (obj : ConfigObj) :
    (_clcStep env kind obj).headers = obj.headers := by
  unfold _clcStep
  split
  · rfl
  · split
    · rfl
    · rw [clcCredAssign_headers, clcUrlAssign_headers]

theorem clcStep_credentials_of_some (env : Env) (kind : String) (obj : ConfigObj) (c : String)
    (h : obj.credentials = some c) : (_clcStep env kind obj).credentials = some c := by
  unfold _clcStep
  split
  · exact h
  · split
    · exact h
    · refine clcCredAssign_credentials_of_some _ _ c ?_
      rw [clcUrlAssign_credentials]
      exact h

theorem dynUrlAssign_url_of_none (dyn : DynCreds) (obj : ConfigObj) (h : obj.url = none) :
    (dynUrlAssign dyn obj).url = some (dyn.apiurl ++ "/v2/otlp/v1/traces") := by
  simp [dynUrlAssign, h]

theorem dynUrlAssign_url_of_some (dyn : DynCreds) (obj : ConfigObj) (u : String)
    (h : obj.url = some u) : (dynUrlAssign dyn obj).url = some u := by
  simp [dynUrlAssign, h]

theorem dynUrlAssign_headers (dyn : DynCreds) (obj : ConfigObj) :
    (dynUrlAssign dyn obj).headers = obj.headers := by
  unfold dynUrlAssign
  split <;> rfl

theorem dynUrlAssign_credentials (dyn : DynCreds) (obj : ConfigObj) :
    (dynUrlAssign dyn obj).credentials = obj.credentials := by
  unfold dynUrlAssign
  split <;> rfl

theorem dynHeadersAlloc_url (obj : ConfigObj) (heap : Heap) :
    (dynHeadersAlloc obj heap).1.url = obj.url := by
  unfold dynHeadersAlloc
  split <;> rfl

theorem dynHeadersAlloc_credentials (obj : ConfigObj) (heap : Heap) :
    (dynHeadersAlloc obj heap).1.credentials = obj.credentials := by
  unfold dynHeadersAlloc
  split <;> rfl

theorem dynHeadersAlloc_of_some (obj : ConfigObj) (heap : Heap) (i : Nat)
    (h : obj.headers = some i) : dynHeadersAlloc obj heap = (obj, heap) := by
  simp [dynHeadersAlloc, h]

theorem dynHeadersAlloc_of_none (obj : ConfigObj) (heap : Heap)
    (h : obj.headers = none) :
    dynHeadersAlloc obj heap = ({ obj with headers := some heap.length }, heap ++ [⟨none⟩]) := by
  simp [dynHeadersAlloc, h]

theorem dynAuthWrite_of_unset (t : String) (obj : ConfigObj) (heap : Heap) (i : Nat)
    (hh : obj.headers = some i) (hl : heap[i]? = some ⟨none⟩) :
    (dynAuthWrite t obj heap)[i]? = some ⟨some ("Api-Token " ++ t)⟩ := by
  have hlt : i < heap.length := by
    rcases List.getElem?_eq_some.mp hl with ⟨hlt, _⟩
    exact hlt
  simp only [dynAuthWrite, hh, hl, Option.isNone_none, if_true]
  exact List.getElem?_set_eq_of_lt _ hlt

theorem dynAuthWrite_of_set (t : String) (obj : ConfigObj) (heap : Heap) (i : Nat) (a : String)
    (hh : obj.headers = some i) (hl : heap[i]? = some ⟨some a⟩) :
    dynAuthWrite t obj heap = heap := by
  simp [dynAuthWrite, hh, hl]

theorem dynAuthWrite_of_no_headers (t : String) (obj : ConfigObj) (heap : Heap)
    (hh : obj.headers = none) : dynAuthWrite t obj heap = heap := by
  simp [dynAuthWrite, hh]

theorem dynStep_ok (env : Env) (kind tokenName : String) (obj : ConfigObj) (heap : Heap)
    (dyn : DynCreds) (t : String)
    (hdyn : env.dynatrace = some dyn) (hkind : kindMatches kind "dynatrace" = true)
    (htok : jsOr (dyn.fields tokenName) (dyn.rest_apitoken.bind RestApiToken.token) = some t)
    (ht : t ≠ "") :
    _dynatraceStep env kind tokenName obj heap =
      ((dynHeadersAlloc (dynUrlAssign dyn obj) heap).1,
       dynAuthWrite t (dynHeadersAlloc (dynUrlAssign dyn obj) heap).1
         (dynHeadersAlloc (dynUrlAssign dyn obj) heap).2,
       none) := by
  simp [_dynatraceStep, hdyn, hkind, htok, ht]

theorem dynStep_err (env : Env) (kind tokenName : String) (obj : ConfigObj) (heap : Heap)
    (dyn : DynCreds)
    (hdyn : env.dynatrace = some dyn) (hkind : kindMatches kind "dynatrace" = true)
    (htok : jsOr (dyn.fields tokenName) (dyn.rest_apitoken.bind RestApiToken.token) = none) :
    _dynatraceStep env kind tokenName obj heap =
      ((dynHeadersAlloc (dynUrlAssign dyn obj) heap).1,
       (dynHeadersAlloc (dynUrlAssign dyn obj) heap).2,
       some (dynTokenErr tokenName)) := by
  simp [_dynatraceStep, hdyn, hkind, htok]

theorem dynStep_inactive (env : Env) (kind tokenName : String) (obj : ConfigObj) (heap : Heap)
    (h : env.dynatrace = none ∨ kindMatches kind "dynatrace" = false) :
    _dynatraceStep env kind tokenName obj heap = (obj, heap, none) := by
  rcases h with h | h
  · simp [_dynatraceStep, h]
  · unfold _dynatraceStep
    cases env.dynatrace <;> simp [h]

theorem initCallerConfig_url (c : Option CallerExporterConfig) :
    (initCallerConfig c).1.url = callerUrl c := by
  rcases c with _ | ⟨u, h, cr⟩
  · rfl
  · rcases h with _ | hh <;> rfl

theorem initCallerConfig_credentials (c : Option CallerExporterConfig) :
    (initCallerConfig c).1.credentials = callerCreds c := by
  rcases c with _ | ⟨u, h, cr⟩
  · rfl
  · rcases h with _ | hh <;> rfl

theorem initCallerConfig_headers_none (c : Option CallerExporterConfig)
    (h : callerHeaders c = none) :
    (initCallerConfig c).1.headers = none ∧ (initCallerConfig c).2 = [] := by
  rcases c with _ | ⟨u, hd, cr⟩
  · exact ⟨rfl, rfl⟩
  · rcases hd with _ | hh
    · exact ⟨rfl, rfl⟩
    · simp [callerHeaders] at h

theorem initCallerConfig_headers_some (c : Option CallerExporterConfig) (hh : Headers)
    (h : callerHeaders c = some hh) :
    (initCallerConfig c).1.headers = some 0 ∧ (initCallerConfig c).2 = [hh] := by
  rcases c with _ | ⟨u, hd, cr⟩
  · simp [callerHeaders] at h
  · rcases hd with _ | hh2
    · simp [callerHeaders] at h
    · simp [callerHeaders] at h
      simp [initCallerConfig, h]

theorem allocWrite_read_none (obj : ConfigObj) (heap : Heap) (t : String)
    (h : obj.headers = none) :
    ((dynHeadersAlloc obj heap).1.headers.bind
      fun i => (dynAuthWrite t (dynHeadersAlloc obj heap).1 (dynHeadersAlloc obj heap).2)[i]?) =
    some ⟨some ("Api-Token " ++ t)⟩ := by
  rw [dynHeadersAlloc_of_none _ _ h]
  have hw := dynAuthWrite_of_unset t { obj with headers := some heap.length }
    (heap ++ [⟨none⟩]) heap.length rfl (by simp)
  simpa using hw

theorem allocWrite_read_some (obj : ConfigObj) (heap : Heap) (t : String) (i : Nat)
    (h : obj.headers = some i) (hl : heap[i]? = some ⟨none⟩) :
    ((dynHeadersAlloc obj heap).1.headers.bind
      fun i2 => (dynAuthWrite t (dynHeadersAlloc obj heap).1 (dynHeadersAlloc obj heap).2)[i2]?) =
    some ⟨some ("Api-Token " ++ t)⟩ := by
  rw [dynHeadersAlloc_of_some _ _ i h]
  have hw := dynAuthWrite_of_unset t obj heap i h hl
  simp [h, hw]

theorem getExporter_ok_dyn (env : Env) (kind tokenName : String) (spec : ExporterSpec)
    (dyn : DynCreds) (t : String)
    (hcls : (if spec.module = "@cap-js/telemetry" then env.localExporter spec.cls
      else env.modules spec.module spec.cls) = true)
    (hdyn : env.dynatrace = some dyn) (hkind : kindMatches kind "dynatrace" = true)
    (htok : jsOr (dyn.fields tokenName) (dyn.rest_apitoken.bind RestApiToken.token) = some t)
    (ht : t ≠ "") :
    _getExporter env kind tokenName spec =
      { err := none,
        obj := _clcStep env kind
          (dynHeadersAlloc (dynUrlAssign dyn (initCallerConfig spec.config).1)
            (initCallerConfig spec.config).2).1,
        heapAfter := dynAuthWrite t
          (dynHeadersAlloc (dynUrlAssign dyn (initCallerConfig spec.config).1)
            (initCallerConfig spec.config).2).1
          (dynHeadersAlloc (dynUrlAssign dyn (initCallerConfig spec.config).1)
            (initCallerConfig spec.config).2).2,
        origObj := (initCallerConfig spec.config).1,
        heapBefore := (initCallerConfig spec.config).2,
        built := true } := by
  have hstep := dynStep_ok env kind tokenName (initCallerConfig spec.config).1
    (initCallerConfig spec.config).2 dyn t hdyn hkind htok ht
  simp [_getExporter, hcls, hstep]

theorem getExporter_err_dyn (env : Env) (kind tokenName : String) (spec : ExporterSpec)
    (dyn : DynCreds)
    (hcls : (if spec.module = "@cap-js/telemetry" then env.localExporter spec.cls
      else env.modules spec.module spec.cls) = true)
    (hdyn : env.dynatrace = some dyn) (hkind : kindMatches kind "dynatrace" = true)
    (htok : jsOr (dyn.fields tokenName) (dyn.rest_apitoken.bind RestApiToken.token) = none) :
    (_getExporter env kind tokenName spec).err = some (dynTokenErr tokenName) := by
  have hstep := dynStep_err env kind tokenName (initCallerConfig spec.config).1
    (initCallerConfig spec.config).2 dyn hdyn hkind htok
  simp [_getExporter, hcls, hstep]

/-- C3: with Dynatrace credentials present, a matching kind, a known
exporter class, and no caller-set `url` or `headers.authorization`,
injection yields `url = apiurl ++ "/v2/otlp/v1/traces"` and
`headers.authorization = "Api-Token " ++ token` in the effective
config; and when neither the configured token field nor the deprecated
`rest_apitoken.token` is present, construction fails with an error
naming both field names. -/
theorem C3_dynatrace_injection (env : Env) (kind tokenName : String) (spec : ExporterSpec)
    (dyn : DynCreds)
    (hdyn : env.dynatrace = some dyn)
    (hkind : kindMatches kind "dynatrace" = true)
    (hcls : (if spec.module = "@cap-js/telemetry" then env.localExporter spec.cls
      else env.modules spec.module spec.cls) = true)
    (hurl : callerUrl spec.config = none)
    (hauth : callerAuth spec.config = none) :
    (∀ t, jsOr (dyn.fields tokenName) (dyn.rest_apitoken.bind RestApiToken.token) = some t →
      t ≠ "" →
      (_getExporter env kind tokenName spec).err = none ∧
      (effConfig (_getExporter env kind tokenName spec)).url =
        some (dyn.apiurl ++ "/v2/otlp/v1/traces") ∧
      ((effConfig (_getExporter env kind tokenName spec)).headers.bind Headers.authorization) =
        some ("Api-Token " ++ t)) ∧
    (dyn.fields tokenName = none → dyn.rest_apitoken.bind RestApiToken.token = none →
      ∃ msg, (_getExporter env kind tokenName spec).err = some msg ∧
        containsStr msg tokenName ∧ containsStr msg "rest_apitoken.token") := by
  constructor
  · intro t htok ht
    have hrun := getExporter_ok_dyn env kind tokenName spec dyn t hcls hdyn hkind htok ht
    have horig : (initCallerConfig spec.config).1.url = none := by
      rw [initCallerConfig_url]
      exact hurl
    have hP1url : (dynHeadersAlloc (dynUrlAssign dyn (initCallerConfig spec.config).1)
        (initCallerConfig spec.config).2).1.url =
        some (dyn.apiurl ++ "/v2/otlp/v1/traces") := by
      rw [dynHeadersAlloc_url]
      exact dynUrlAssign_url_of_none dyn _ horig
    refine ⟨by rw [hrun], ?_, ?_⟩
    · rw [hrun]
      exact clcStep_url_of_some env kind _ _ hP1url
    · rw [hrun]
      show ((_clcStep env kind _).headers.bind _).bind Headers.authorization = _
      rw [clcStep_headers]
      rcases hch : callerHeaders spec.config with _ | hh
      · obtain ⟨hh0, _⟩ := initCallerConfig_headers_none spec.config hch
        have hduh : (dynUrlAssign dyn (initCallerConfig spec.config).1).headers = none := by
          rw [dynUrlAssign_headers]
          exact hh0
        rw [allocWrite_read_none _ _ t hduh]
        rfl
      · have hauth2 : (callerHeaders spec.config).bind Headers.authorization = none := hauth
        rw [hch] at hauth2
        simp only [Option.some_bind] at hauth2
        obtain ⟨hh0, hp0⟩ := initCallerConfig_headers_some spec.config hh hch
        have hduh : (dynUrlAssign dyn (initCallerConfig spec.config).1).headers = some 0 := by
          rw [dynUrlAssign_headers]
          exact hh0
        have hl : (initCallerConfig spec.config).2[0]? = some ⟨none⟩ := by
          rw [hp0]
          cases hh with
          | mk a => cases a with
            | none => rfl
            | some av => exact absurd hauth2 (by simp)
        rw [allocWrite_read_some _ _ t 0 hduh hl]
        rfl
  · intro h1 h2
    have htok : jsOr (dyn.fields tokenName) (dyn.rest_apitoken.bind RestApiToken.token) = none := by
      simp [jsOr, jsTruthy, h1, h2]
    refine ⟨dynTokenErr tokenName, getExporter_err_dyn env kind tokenName spec dyn hcls hdyn hkind htok, ?_, ?_⟩
    · simp only [dynTokenErr]
      exact containsStr_extend _ _ (containsStr_extend _ _ (containsStr_extend _ _
        (containsStr_right "Neither \"" tokenName)))
    · simp only [dynTokenErr]
      exact containsStr_extend _ _ (containsStr_right _ "rest_apitoken.token")

theorem C3_dynatrace_injection_witness :
    (_getExporter envDyn "dynatrace" "apitoken" specFull).err = none ∧
    (effConfig (_getExporter envDyn "dynatrace" "apitoken" specFull)).url =
      some (dynFull.apiurl ++ "/v2/otlp/v1/traces") ∧
    ((effConfig (_getExporter envDyn "dynatrace" "apitoken" specFull)).headers.bind
      Headers.authorization) = some ("Api-Token " ++ "secret") :=
  (C3_dynatrace_injection envDyn "dynatrace" "apitoken" specFull dynFull rfl (by decide)
      rfl rfl rfl).1 "secret" rfl (by decide)

/-- C4 counterexample: with `headers.authorization` explicitly set by
the caller and Dynatrace credentials carrying no token field, the claim
says construction succeeds, but the code throws the token error before
the `authorization ??=` check, so construction fails. -/
theorem C4_counterexample :
    callerAuth specAuthSet.config = some "Basic abc" ∧
    (_getExporter envDynNoToken "dynatrace" "apitoken" specAuthSet).err =
      some (dynTokenErr "apitoken") := by
  constructor
  · rfl
  · rfl

theorem dynAuthWrite_length (t : String) (obj : ConfigObj) (heap : Heap) :
    (dynAuthWrite t obj heap).length = heap.length := by
  unfold dynAuthWrite
  split
  · rfl
  · split
    · rfl
    · split
      · simp
      · rfl

theorem dynStep_err_empty (env : Env) (kind tokenName : String) (obj : ConfigObj) (heap : Heap)
    (dyn : DynCreds)
    (hdyn : env.dynatrace = some dyn) (hkind : kindMatches kind "dynatrace" = true)
    (htok : jsOr (dyn.fields tokenName) (dyn.rest_apitoken.bind RestApiToken.token) = some "") :
    _dynatraceStep env kind tokenName obj heap =
      ((dynHeadersAlloc (dynUrlAssign dyn obj) heap).1,
       (dynHeadersAlloc (dynUrlAssign dyn obj) heap).2,
       some (dynTokenErr tokenName)) := by
  simp [_dynatraceStep, hdyn, hkind, htok]

/-- Exhaustive enumeration of the outcomes of `_getExporter`: unknown
class, token failure, injection inactive, or successful injection. -/
theorem getExporter_cases (env : Env) (kind tokenName : String) (spec : ExporterSpec) :
    (∃ m, _getExporter env kind tokenName spec =
      { err := some m, obj := (initCallerConfig spec.config).1,
        heapAfter := (initCallerConfig spec.config).2,
        origObj := (initCallerConfig spec.config).1,
        heapBefore := (initCallerConfig spec.config).2, built := false }) ∨
    (∃ dyn, env.dynatrace = some dyn ∧ kindMatches kind "dynatrace" = true ∧
      _getExporter env kind tokenName spec =
        { err := some (dynTokenErr tokenName), obj := (dynAlloc dyn spec.config).1,
          heapAfter := (dynAlloc dyn spec.config).2,
          origObj := (initCallerConfig spec.config).1,
          heapBefore := (initCallerConfig spec.config).2, built := false }) ∨
    ((env.dynatrace = none ∨ kindMatches kind "dynatrace" = false) ∧
      _getExporter env kind tokenName spec =
        { err := none, obj := _clcStep env kind (initCallerConfig spec.config).1,
          heapAfter := (initCallerConfig spec.config).2,
          origObj := (initCallerConfig spec.config).1,
          heapBefore := (initCallerConfig spec.config).2, built := true }) ∨
    (∃ dyn t, env.dynatrace = some dyn ∧ kindMatches kind "dynatrace" = true ∧
      jsOr (dyn.fields tokenName) (dyn.rest_apitoken.bind RestApiToken.token) = some t ∧
      t ≠ "" ∧
      _getExporter env kind tokenName spec =
        { err := none, obj := _clcStep env kind (dynAlloc dyn spec.config).1,
          heapAfter := dynAuthWrite t (dynAlloc dyn spec.config).1 (dynAlloc dyn spec.config).2,
          origObj := (initCallerConfig spec.config).1,
          heapBefore := (initCallerConfig spec.config).2, built := true }) := by
  by_cases hcls : (if spec.module = "@cap-js/telemetry" then env.localExporter spec.cls
      else env.modules spec.module spec.cls) = false
  · left
    exact ⟨"Unknown tracing exporter \"" ++ spec.cls ++ "\" in module \"" ++ spec.module ++ "\"",
      by simp [_getExporter, hcls]⟩
  · have hcls2 : (if spec.module = "@cap-js/telemetry" then env.localExporter spec.cls
        else env.modules spec.module spec.cls) = true := by
      simpa using hcls
    cases hd : env.dynatrace with
    | none =>
      right; right; left
      refine ⟨Or.inl rfl, ?_⟩
      have hstep := dynStep_inactive env kind tokenName (initCallerConfig spec.config).1
        (initCallerConfig spec.config).2 (Or.inl hd)
      simp [_getExporter, hcls2, hstep]
    | some dyn =>
      by_cases hk : kindMatches kind "dynatrace" = true
      · cases htok : jsOr (dyn.fields tokenName) (dyn.rest_apitoken.bind RestApiToken.token) with
        | none =>
          right; left
          refine ⟨dyn, rfl, hk, ?_⟩
          have hstep := dynStep_err env kind tokenName (initCallerConfig spec.config).1
            (initCallerConfig spec.config).2 dyn hd hk htok
          simp [_getExporter, hcls2, hstep, dynAlloc]
        | some t =>
          by_cases ht : t = ""
          · right; left
            subst ht
            refine ⟨dyn, rfl, hk, ?_⟩
            have hstep := dynStep_err_empty env kind tokenName (initCallerConfig spec.config).1
              (initCallerConfig spec.config).2 dyn hd hk htok
            simp [_getExporter, hcls2, hstep, dynAlloc]
          · right; right; right
            refine ⟨dyn, t, rfl, hk, htok, ht, ?_⟩
            have hstep := dynStep_ok env kind tokenName (initCallerConfig spec.config).1
              (initCallerConfig spec.config).2 dyn t hd hk htok ht
            simp [_getExporter, hcls2, hstep, dynAlloc]
      · right; right; left
        have hk2 : kindMatches kind "dynatrace" = false := by simpa using hk
        refine ⟨Or.inr hk2, ?_⟩
        have hstep := dynStep_inactive env kind tokenName (initCallerConfig spec.config).1
          (initCallerConfig spec.config).2 (Or.inr hk2)
        simp [_getExporter, hcls2, hstep]

theorem callerAuth_elim (c : Option CallerExporterConfig) (a : String)
    (h : callerAuth c = some a) :
    ∃ hh, callerHeaders c = some hh ∧ hh.authorization = some a := by
  unfold callerAuth at h
  cases hch : c.bind CallerExporterConfig.headers with
  | none => rw [hch] at h; simp at h
  | some hh =>
    rw [hch] at h
    simp only [Option.some_bind] at h
    exact ⟨hh, hch, h⟩

/-- C4 (amended): during provider-A injection a token is required
whenever the injection branch runs (credentials present and kind
matching), regardless of whether `headers.authorization` was explicitly
set: with neither the configured token field nor the deprecated legacy
field present, construction fails naming both field names even when the
caller explicitly set `headers.authorization`. -/
theorem C4_amended_token_always_required (env : Env) (kind tokenName : String)
    (spec : ExporterSpec) (dyn : DynCreds)
    (hdyn : env.dynatrace = some dyn)
    (hkind : kindMatches kind "dynatrace" = true)
    (hcls : (if spec.module = "@cap-js/telemetry" then env.localExporter spec.cls
      else env.modules spec.module spec.cls) = true)
    (h1 : dyn.fields tokenName = none)
    (h2 : dyn.rest_apitoken.bind RestApiToken.token = none) :
    ∃ msg, (_getExporter env kind tokenName spec).err = some msg ∧
      containsStr msg tokenName ∧ containsStr msg "rest_apitoken.token" := by
  have htok : jsOr (dyn.fields tokenName) (dyn.rest_apitoken.bind RestApiToken.token) = none := by
    simp [jsOr, jsTruthy, h1, h2]
  refine ⟨dynTokenErr tokenName,
    getExporter_err_dyn env kind tokenName spec dyn hcls hdyn hkind htok, ?_, ?_⟩
  · simp only [dynTokenErr]
    exact containsStr_extend _ _ (containsStr_extend _ _ (containsStr_extend _ _
      (containsStr_right "Neither \"" tokenName)))
  · simp only [dynTokenErr]
    exact containsStr_extend _ _ (containsStr_right _ "rest_apitoken.token")

theorem C4_amended_witness :
    ∃ msg, (_getExporter envDynNoToken "dynatrace" "apitoken" specAuthSet).err = some msg ∧
      containsStr msg "apitoken" ∧ containsStr msg "rest_apitoken.token" :=
  C4_amended_token_always_required envDynNoToken "dynatrace" "apitoken" specAuthSet
    dynNoToken rfl (by decide) rfl rfl rfl

/-- C5: credential injection (Dynatrace and Cloud Logging) never
overwrites an explicitly set exporter-config value: whenever the
exporter constructor is reached, a caller-set `url`,
`headers.authorization`, or `credentials` is the value present in the
final merged config, and a caller-supplied `headers` object is still
present. -/
theorem C5_no_overwrite (env : Env) (kind tokenName : String) (spec : ExporterSpec)
    (hok : (_getExporter env kind tokenName spec).err = none) :
    (∀ u, callerUrl spec.config = some u →
      (effConfig (_getExporter env kind tokenName spec)).url = some u) ∧
    (∀ a, callerAuth spec.config = some a →
      ((effConfig (_getExporter env kind tokenName spec)).headers.bind
        Headers.authorization) = some a) ∧
    (∀ c, callerCreds spec.config = some c →
      (effConfig (_getExporter env kind tokenName spec)).credentials = some c) ∧
    ((callerHeaders spec.config).isSome = true →
      ((effConfig (_getExporter env kind tokenName spec)).headers).isSome = true) := by
  rcases getExporter_cases env kind tokenName spec with
    ⟨m, hcase⟩ | ⟨dyn, _, _, hcase⟩ | ⟨_, hcase⟩ | ⟨dyn, t, hd, hk, htok, ht, hcase⟩
  · rw [hcase] at hok
    exact absurd hok (by simp)
  · rw [hcase] at hok
    exact absurd hok (by simp)
  · refine ⟨?_, ?_, ?_, ?_⟩
    · intro u hu
      rw [hcase]
      simp only [effConfig, readConfig]
      exact clcStep_url_of_some env kind _ u (by rw [initCallerConfig_url]; exact hu)
    · intro a ha
      rw [hcase]
      simp only [effConfig, readConfig]
      obtain ⟨hh, hch, hha⟩ := callerAuth_elim spec.config a ha
      obtain ⟨hh0, hp0⟩ := initCallerConfig_headers_some spec.config hh hch
      rw [clcStep_headers, hh0, hp0]
      simpa using hha
    · intro c hc
      rw [hcase]
      simp only [effConfig, readConfig]
      exact clcStep_credentials_of_some env kind _ c
        (by rw [initCallerConfig_credentials]; exact hc)
    · intro hhs
      rw [hcase]
      simp only [effConfig, readConfig]
      obtain ⟨hh, hch⟩ := Option.isSome_iff_exists.mp hhs
      obtain ⟨hh0, hp0⟩ := initCallerConfig_headers_some spec.config hh hch
      rw [clcStep_headers, hh0, hp0]
      rfl
  · refine ⟨?_, ?_, ?_, ?_⟩
    · intro u hu
      rw [hcase]
      simp only [effConfig, readConfig]
      refine clcStep_url_of_some env kind _ u ?_
      rw [dynAlloc, dynHeadersAlloc_url]
      exact dynUrlAssign_url_of_some dyn _ u (by rw [initCallerConfig_url]; exact hu)
    · intro a ha
      rw [hcase]
      simp only [effConfig, readConfig]
      obtain ⟨hh, hch, hha⟩ := callerAuth_elim spec.config a ha
      obtain ⟨hh0, hp0⟩ := initCallerConfig_headers_some spec.config hh hch
      have hua : (dynUrlAssign dyn (initCallerConfig spec.config).1).headers = some 0 := by
        rw [dynUrlAssign_headers]
        exact hh0
      have halloc : dynAlloc dyn spec.config =
          (dynUrlAssign dyn (initCallerConfig spec.config).1, (initCallerConfig spec.config).2) := by
        rw [dynAlloc]
        exact dynHeadersAlloc_of_some _ _ 0 hua
      obtain ⟨auth0⟩ := hh
      have hau : auth0 = some a := hha
      subst hau
      have hl : (initCallerConfig spec.config).2[0]? = some ⟨some a⟩ := by
        rw [hp0]
        rfl
      have hw : dynAuthWrite t (dynAlloc dyn spec.config).1 (dynAlloc dyn spec.config).2 =
          (initCallerConfig spec.config).2 := by
        rw [halloc]
        exact dynAuthWrite_of_set t _ _ 0 a hua hl
      rw [clcStep_headers, hw, halloc, hua]
      simp [hl]
    · intro c hc
      rw [hcase]
      simp only [effConfig, readConfig]
      refine clcStep_credentials_of_some env kind _ c ?_
      rw [dynAlloc, dynHeadersAlloc_credentials, dynUrlAssign_credentials,
        initCallerConfig_credentials]
      exact hc
    · intro hhs
      rw [hcase]
      simp only [effConfig, readConfig]
      obtain ⟨hh, hch⟩ := Option.isSome_iff_exists.mp hhs
      obtain ⟨hh0, hp0⟩ := initCallerConfig_headers_some spec.config hh hch
      have hua : (dynUrlAssign dyn (initCallerConfig spec.config).1).headers = some 0 := by
        rw [dynUrlAssign_headers]
        exact hh0
      have halloc : dynAlloc dyn spec.config =
          (dynUrlAssign dyn (initCallerConfig spec.config).1, (initCallerConfig spec.config).2) := by
        rw [dynAlloc]
        exact dynHeadersAlloc_of_some _ _ 0 hua
      rw [clcStep_headers, halloc, hua]
      have hlen : (dynAuthWrite t (dynUrlAssign dyn (initCallerConfig spec.config).1)
          (initCallerConfig spec.config).2).length = 1 := by
        rw [dynAuthWrite_length, hp0]
        rfl
      have : (dynAuthWrite t (dynUrlAssign dyn (initCallerConfig spec.config).1)
          (initCallerConfig spec.config).2)[0]? ≠ none := by
        rw [Ne, List.getElem?_eq_none_iff, hlen]
        simp
      simpa [Option.isSome_iff_ne_none] using this

theorem C5_no_overwrite_witness :
    (effConfig (_getExporter envDyn "dynatrace" "apitoken" specAuthSet)).headers.bind
      Headers.authorization = some "Basic abc" :=
  (C5_no_overwrite envDyn "dynatrace" "apitoken" specAuthSet (by decide)).2.1
    "Basic abc" (by decide)

theorem origRead_unchanged_of_no_headers (env : Env) (kind tokenName : String)
    (spec : ExporterSpec) (h : callerHeaders spec.config = none) :
    (effOrigAfter (_getExporter env kind tokenName spec)).headers =
      (effOrigBefore (_getExporter env kind tokenName spec)).headers := by
  obtain ⟨hh0, _⟩ := initCallerConfig_headers_none spec.config h
  rcases getExporter_cases env kind tokenName spec with
    ⟨m, hcase⟩ | ⟨dyn, hd, hk, hcase⟩ | ⟨hin, hcase⟩ | ⟨dyn, t, hd, hk, htok, ht, hcase⟩ <;>
    · rw [hcase]
      simp [effOrigAfter, effOrigBefore, readConfig, hh0]

theorem origRead_unchanged_of_auth_set (env : Env) (kind tokenName : String)
    (spec : ExporterSpec) (a : String) (ha : callerAuth spec.config = some a) :
    (effOrigAfter (_getExporter env kind tokenName spec)).headers =
      (effOrigBefore (_getExporter env kind tokenName spec)).headers := by
  obtain ⟨hh, hch, hha⟩ := callerAuth_elim spec.config a ha
  obtain ⟨hh0, hp0⟩ := initCallerConfig_headers_some spec.config hh hch
  obtain ⟨auth0⟩ := hh
  have hau : auth0 = some a := hha
  subst hau
  rcases getExporter_cases env kind tokenName spec with
    ⟨m, hcase⟩ | ⟨dyn, hd, hk, hcase⟩ | ⟨hin, hcase⟩ | ⟨dyn, t, hd, hk, htok, ht, hcase⟩
  · rw [hcase]; rfl
  · rw [hcase]
    simp only [effOrigAfter, effOrigBefore, readConfig]
    have hua2 : (dynUrlAssign dyn (initCallerConfig spec.config).1).headers = some 0 := by
      rw [dynUrlAssign_headers]
      exact hh0
    have halloc : dynAlloc dyn spec.config =
        (dynUrlAssign dyn (initCallerConfig spec.config).1, (initCallerConfig spec.config).2) := by
      rw [dynAlloc]
      exact dynHeadersAlloc_of_some _ _ 0 hua2
    rw [halloc]
  · rw [hcase]; rfl
  · rw [hcase]
    simp only [effOrigAfter, effOrigBefore, readConfig]
    have hua2 : (dynUrlAssign dyn (initCallerConfig spec.config).1).headers = some 0 := by
      rw [dynUrlAssign_headers]
      exact hh0
    have halloc : dynAlloc dyn spec.config =
        (dynUrlAssign dyn (initCallerConfig spec.config).1, (initCallerConfig spec.config).2) := by
      rw [dynAlloc]
      exact dynHeadersAlloc_of_some _ _ 0 hua2
    have hl : (initCallerConfig spec.config).2[0]? = some ⟨some a⟩ := by
      rw [hp0]
      rfl
    have hw : dynAuthWrite t (dynAlloc dyn spec.config).1 (dynAlloc dyn spec.config).2 =
        (initCallerConfig spec.config).2 := by
      rw [halloc]
      exact dynAuthWrite_of_set t _ _ 0 a hua2 hl
    rw [hw]

/-- C9 counterexample: exporter assembly mutates the caller's declared
configuration: with Dynatrace injection active and a caller-supplied
headers object whose `authorization` is unset, the caller's own nested
headers object gains `authorization` (the shallow copy shares the
nested object), so the original config read after the run differs from
before. -/
theorem C9_counterexample :
    effOrigBefore (_getExporter envDyn "dynatrace" "apitoken" specEmptyHeaders) ≠
      effOrigAfter (_getExporter envDyn "dynatrace" "apitoken" specEmptyHeaders) ∧
    (effOrigBefore (_getExporter envDyn "dynatrace" "apitoken" specEmptyHeaders)).headers =
      some ⟨none⟩ ∧
    (effOrigAfter (_getExporter envDyn "dynatrace" "apitoken" specEmptyHeaders)).headers =
      some ⟨some ("Api-Token " ++ "secret")⟩ := by
  decide

/-- C9 (amended): exporter assembly never changes the original
`exporterSpec.config` object's own fields: after the run the caller's
config still reads the same `url` and `credentials`, and the nested
headers object is untouched whenever the caller set
`headers.authorization`; the one possible change is that a
caller-supplied headers object with `authorization` unset gains the
injected `"Api-Token " ++ token` value when Dynatrace injection runs
with a usable token (the shallow copy shares the nested object). -/
theorem C9_amended_mutation (env : Env) (kind tokenName : String) (spec : ExporterSpec) :
    (effOrigAfter (_getExporter env kind tokenName spec)).url =
      (effOrigBefore (_getExporter env kind tokenName spec)).url ∧
    (effOrigAfter (_getExporter env kind tokenName spec)).credentials =
      (effOrigBefore (_getExporter env kind tokenName spec)).credentials ∧
    (∀ a, callerAuth spec.config = some a →
      (effOrigAfter (_getExporter env kind tokenName spec)).headers =
        (effOrigBefore (_getExporter env kind tokenName spec)).headers) ∧
    ((effOrigAfter (_getExporter env kind tokenName spec)).headers ≠
        (effOrigBefore (_getExporter env kind tokenName spec)).headers →
      env.dynatrace.isSome = true ∧ kindMatches kind "dynatrace" = true ∧
      callerAuth spec.config = none ∧ (callerHeaders spec.config).isSome = true ∧
      ∃ t, t ≠ "" ∧
        (effOrigAfter (_getExporter env kind tokenName spec)).headers =
          some ⟨some ("Api-Token " ++ t)⟩) := by
  refine ⟨rfl, rfl, ?_, ?_⟩
  · intro a ha
    exact origRead_unchanged_of_auth_set env kind tokenName spec a ha
  · intro hne
    rcases getExporter_cases env kind tokenName spec with
      ⟨m, hcase⟩ | ⟨dyn, hd, hk, hcase⟩ | ⟨hin, hcase⟩ | ⟨dyn, t, hd, hk, htok, ht, hcase⟩
    · exact absurd (by rw [hcase]; rfl) hne
    · exfalso
      apply hne
      rcases hch : callerHeaders spec.config with _ | hh
      · exact origRead_unchanged_of_no_headers env kind tokenName spec hch
      · obtain ⟨hh0, hp0⟩ := initCallerConfig_headers_some spec.config hh hch
        rw [hcase]
        simp only [effOrigAfter, effOrigBefore, readConfig]
        have hua : (dynUrlAssign dyn (initCallerConfig spec.config).1).headers = some 0 := by
          rw [dynUrlAssign_headers]
          exact hh0
        have halloc : dynAlloc dyn spec.config =
            (dynUrlAssign dyn (initCallerConfig spec.config).1,
              (initCallerConfig spec.config).2) := by
          rw [dynAlloc]
          exact dynHeadersAlloc_of_some _ _ 0 hua
        rw [halloc]
    · exact absurd (by rw [hcase]; rfl) hne
    · rcases hch : callerHeaders spec.config with _ | hh
      · exact absurd (origRead_unchanged_of_no_headers env kind tokenName spec hch) hne
      · obtain ⟨hh0, hp0⟩ := initCallerConfig_headers_some spec.config hh hch
        obtain ⟨auth0⟩ := hh
        cases auth0 with
        | some a =>
          refine absurd (origRead_unchanged_of_auth_set env kind tokenName spec a ?_) hne
          unfold callerAuth
          rw [show spec.config.bind CallerExporterConfig.headers =
            callerHeaders spec.config from rfl, hch]
          rfl
        | none =>
          have hca : callerAuth spec.config = none := by
            unfold callerAuth
            rw [show spec.config.bind CallerExporterConfig.headers =
              callerHeaders spec.config from rfl, hch]
            rfl
          refine ⟨by rw [hd]; rfl, hk, hca, rfl, t, ht, ?_⟩
          rw [hcase]
          simp only [effOrigAfter, readConfig]
          have hua : (dynUrlAssign dyn (initCallerConfig spec.config).1).headers = some 0 := by
            rw [dynUrlAssign_headers]
            exact hh0
          have halloc : dynAlloc dyn spec.config =
              (dynUrlAssign dyn (initCallerConfig spec.config).1,
                (initCallerConfig spec.config).2) := by
            rw [dynAlloc]
            exact dynHeadersAlloc_of_some _ _ 0 hua
          have hl : (initCallerConfig spec.config).2[0]? = some ⟨none⟩ := by
            rw [hp0]
            rfl
          have hw : (dynAuthWrite t (dynAlloc dyn spec.config).1
              (dynAlloc dyn spec.config).2)[0]? =
              some ⟨some ("Api-Token " ++ t)⟩ := by
            rw [halloc]
            exact dynAuthWrite_of_unset t _ _ 0 hua hl
          rw [hh0]
          simpa using hw

theorem C9_amended_mutation_witness :
    (effOrigAfter (_getExporter envDyn "dynatrace" "apitoken" specAuthSet)).headers =
      (effOrigBefore (_getExporter envDyn "dynatrace" "apitoken" specAuthSet)).headers :=
  (C9_amended_mutation envDyn "dynatrace" "apitoken" specAuthSet).2.2.1 "Basic abc" rfl

theorem processorPhase_state (env : Env) (tel : TelemetryConfig) (spec : ExporterSpec)
    (st : ProcState) (eff : Effects) : (_processorPhase env tel spec st eff).state = st := by
  unfold _processorPhase
  split
  · rfl
  · split <;> rfl

theorem processorPhase_effects_base (env : Env) (tel : TelemetryConfig) (spec : ExporterSpec)
    (st : ProcState) (eff : Effects) :
    ((_processorPhase env tel spec st eff).effects.warnings = eff.warnings) ∧
    ((_processorPhase env tel spec st eff).effects.samplerBuilt = eff.samplerBuilt) ∧
    ((_processorPhase env tel spec st eff).effects.propagatorBuilt = eff.propagatorBuilt) ∧
    ((_processorPhase env tel spec st eff).effects.instrumentationsBuilt =
      eff.instrumentationsBuilt) ∧
    ((_processorPhase env tel spec st eff).effects.providersCreated = eff.providersCreated) := by
  unfold _processorPhase
  split
  · exact ⟨rfl, rfl, rfl, rfl, rfl⟩
  · split
    · exact ⟨rfl, rfl, rfl, rfl, rfl⟩
    · exact ⟨rfl, rfl, rfl, rfl, rfl⟩

theorem processorPhase_bypass (env : Env) (tel : TelemetryConfig) (spec : ExporterSpec)
    (st : ProcState) (eff : Effects)
    (h : (jsTruthy env.dtNodePreload && kindMatches tel.kind "dynatrace") = true) :
    _processorPhase env tel spec st eff = ⟨st, { eff with tracerSet := true }, none⟩ := by
  unfold _processorPhase
  rw [if_pos h]

theorem processorPhase_run (env : Env) (tel : TelemetryConfig) (spec : ExporterSpec)
    (st : ProcState) (eff : Effects)
    (h : (jsTruthy env.dtNodePreload && kindMatches tel.kind "dynatrace") = false)
    (hx : (_getExporter env tel.kind tel.token_name spec).err = none) :
    _processorPhase env tel spec st eff =
      ⟨st,
        { eff with
            exporterBuilt := true,
            processors := [if env.nodeEnv = some "production" then ProcKind.batched
              else ProcKind.immediate],
            tracerSet := true },
        none⟩ := by
  unfold _processorPhase
  rw [if_neg (by simp [h]), hx]

theorem processorPhase_err (env : Env) (tel : TelemetryConfig) (spec : ExporterSpec)
    (st : ProcState) (eff : Effects) (m : String)
    (h : (jsTruthy env.dtNodePreload && kindMatches tel.kind "dynatrace") = false)
    (hx : (_getExporter env tel.kind tel.token_name spec).err = some m) :
    _processorPhase env tel spec st eff = ⟨st, eff, some m⟩ := by
  unfold _processorPhase
  rw [if_neg (by simp [h]), hx]

theorem bootstrap_reuse (env : Env) (tel : TelemetryConfig) (st : ProcState) (p : Nat)
    (tr : TracingSection) (spec : ExporterSpec)
    (htr : tel.tracing = some tr) (hex : tr.exporter = some spec)
    (hdel : st.delegate = some p) :
    bootstrap env tel st = _processorPhase env tel spec st { noEffects with warnings := 1 } := by
  simp [bootstrap, htr, hex, hdel]

theorem bootstrap_installs (env : Env) (tel : TelemetryConfig) (tr : TracingSection)
    (spec : ExporterSpec) (st : ProcState)
    (htr : tel.tracing = some tr) (hex : tr.exporter = some spec)
    (hdel : st.delegate = none)
    (herr : (bootstrap env tel st).err = none) :
    (bootstrap env tel st).state = ⟨some st.created, st.created + 1⟩ := by
  cases hs : _getSamplerDesc env tr.sampler with
  | error m =>
    have hb : bootstrap env tel st = ⟨st, noEffects, some m⟩ := by
      simp [bootstrap, htr, hex, hdel, hs]
    rw [hb] at herr
    exact absurd herr (by simp)
  | ok d =>
    cases hp : _getPropagator env tr.propagators with
    | error m =>
      have hb : bootstrap env tel st = ⟨{ st with created := st.created + 1 },
          { noEffects with samplerBuilt := true, providersCreated := 1 }, some m⟩ := by
        simp [bootstrap, htr, hex, hdel, hs, hp]
      rw [hb] at herr
      exact absurd herr (by simp)
    | ok ds =>
      cases hi : _getInstrumentations env tel.instrumentations with
      | error m =>
        have hb : bootstrap env tel st = ⟨⟨some st.created, st.created + 1⟩,
            { noEffects with
                samplerBuilt := true,
                providersCreated := 1,
                propagatorBuilt := true },
            some m⟩ := by
          simp [bootstrap, htr, hex, hdel, hs, hp, hi]
        rw [hb] at herr
        exact absurd herr (by simp)
      | ok is2 =>
        have hb : bootstrap env tel st =
            _processorPhase env tel spec ⟨some st.created, st.created + 1⟩
              { noEffects with
                  samplerBuilt := true,
                  providersCreated := 1,
                  propagatorBuilt := true,
                  instrumentationsBuilt := true } := by
          simp [bootstrap, htr, hex, hdel, hs, hp, hi]
        rw [hb, processorPhase_state]

theorem bootstrap_reaches_processor (env : Env) (tel : TelemetryConfig) (st : ProcState)
    (tr : TracingSection) (spec : ExporterSpec)
    (htr : tel.tracing = some tr) (hex : tr.exporter = some spec)
    (herr : (bootstrap env tel st).err = none) :
    ∃ st2 eff2, eff2.processors = [] ∧ eff2.exporterBuilt = false ∧
      bootstrap env tel st = _processorPhase env tel spec st2 eff2 := by
  cases hdel : st.delegate with
  | some p =>
    exact ⟨st, { noEffects with warnings := 1 }, rfl, rfl,
      bootstrap_reuse env tel st p tr spec htr hex hdel⟩
  | none =>
    cases hs : _getSamplerDesc env tr.sampler with
    | error m =>
      exfalso
      have hb : bootstrap env tel st = ⟨st, noEffects, some m⟩ := by
        simp [bootstrap, htr, hex, hdel, hs]
      rw [hb] at herr
      exact absurd herr (by simp)
    | ok d =>
      cases hp : _getPropagator env tr.propagators with
      | error m =>
        exfalso
        have hb : bootstrap env tel st = ⟨{ st with created := st.created + 1 },
            { noEffects with samplerBuilt := true, providersCreated := 1 }, some m⟩ := by
          simp [bootstrap, htr, hex, hdel, hs, hp]
        rw [hb] at herr
        exact absurd herr (by simp)
      | ok ds =>
        cases hi : _getInstrumentations env tel.instrumentations with
        | error m =>
          exfalso
          have hb : bootstrap env tel st = ⟨⟨some st.created, st.created + 1⟩,
              { noEffects with
                  samplerBuilt := true,
                  providersCreated := 1,
                  propagatorBuilt := true },
              some m⟩ := by
            simp [bootstrap, htr, hex, hdel, hs, hp, hi]
          rw [hb] at herr
          exact absurd herr (by simp)
        | ok is2 =>
          refine ⟨⟨some st.created, st.created + 1⟩,
            { noEffects with
                samplerBuilt := true,
                providersCreated := 1,
                propagatorBuilt := true,
                instrumentationsBuilt := true },
            rfl, rfl, ?_⟩
          simp [bootstrap, htr, hex, hdel, hs, hp, hi]

/-- C1: when a tracer-provider delegate already exists, the bootstrap
installs no new provider: the delegate is reused as-is (state
unchanged, zero providers created), exactly one warning is logged, and
the sampler, propagator, and instrumentation construction steps are all
skipped; consequently running the bootstrap twice from a fresh process
creates exactly one tracer provider. -/
theorem C1_reuse_idempotent (env : Env) (tel : TelemetryConfig) (st : ProcState) (p : Nat)
    (tr : TracingSection) (spec : ExporterSpec)
    (htr : tel.tracing = some tr) (hex : tr.exporter = some spec)
    (hdel : st.delegate = some p) :
    ((bootstrap env tel st).state.delegate = some p ∧
     (bootstrap env tel st).state.created = st.created ∧
     (bootstrap env tel st).effects.providersCreated = 0 ∧
     (bootstrap env tel st).effects.warnings = 1 ∧
     (bootstrap env tel st).effects.samplerBuilt = false ∧
     (bootstrap env tel st).effects.propagatorBuilt = false ∧
     (bootstrap env tel st).effects.instrumentationsBuilt = false) ∧
    (∀ (env2 : Env) (tel2 : TelemetryConfig) (tr2 : TracingSection) (spec2 : ExporterSpec),
      tel2.tracing = some tr2 → tr2.exporter = some spec2 →
      (bootstrap env2 tel2 ⟨none, 0⟩).err = none →
      (bootstrap env2 tel2 (bootstrap env2 tel2 ⟨none, 0⟩).state).state.created = 1) := by
  constructor
  · have hb := bootstrap_reuse env tel st p tr spec htr hex hdel
    obtain ⟨w, sb, pb, ib, pc⟩ :=
      processorPhase_effects_base env tel spec st { noEffects with warnings := 1 }
    rw [hb]
    refine ⟨?_, ?_, pc, w, sb, pb, ib⟩
    · rw [processorPhase_state]
      exact hdel
    · rw [processorPhase_state]
  · intro env2 tel2 tr2 spec2 htr2 hex2 herr2
    have h1 := bootstrap_installs env2 tel2 tr2 spec2 ⟨none, 0⟩ htr2 hex2 rfl herr2
    have hb2 := bootstrap_reuse env2 tel2 (bootstrap env2 tel2 ⟨none, 0⟩).state 0 tr2 spec2
      htr2 hex2 (by rw [h1])
    rw [hb2, processorPhase_state, h1]

theorem C1_reuse_idempotent_witness :
    (bootstrap envDefault telFull ⟨some 5, 7⟩).state.delegate = some 5 :=
  (C1_reuse_idempotent envDefault telFull ⟨some 5, 7⟩ 5 trFull specFull rfl rfl rfl).1.1

/-- C6: on every bootstrap run that completes, the processor attached
is Batched exactly when `NODE_ENV === 'production'` and Immediate
otherwise, and exactly one span processor is attached — unless the
Dynatrace OneAgent environment marker is set and the telemetry kind
matches Dynatrace, in which case exporter construction is skipped and
zero processors are attached. -/
theorem C6_processor_selection (env : Env) (tel : TelemetryConfig) (st : ProcState)
    (tr : TracingSection) (spec : ExporterSpec)
    (htr : tel.tracing = some tr) (hex : tr.exporter = some spec)
    (herr : (bootstrap env tel st).err = none) :
    ((jsTruthy env.dtNodePreload && kindMatches tel.kind "dynatrace") = true →
      (bootstrap env tel st).effects.processors = [] ∧
      (bootstrap env tel st).effects.exporterBuilt = false) ∧
    ((jsTruthy env.dtNodePreload && kindMatches tel.kind "dynatrace") = false →
      (bootstrap env tel st).effects.processors =
        [if env.nodeEnv = some "production" then ProcKind.batched else ProcKind.immediate] ∧
      (bootstrap env tel st).effects.exporterBuilt = true) := by
  obtain ⟨st2, eff2, hpr, hxb, hb⟩ :=
    bootstrap_reaches_processor env tel st tr spec htr hex herr
  constructor
  · intro h
    rw [hb, processorPhase_bypass env tel spec st2 eff2 h]
    exact ⟨hpr, hxb⟩
  · intro h
    cases hx : (_getExporter env tel.kind tel.token_name spec).err with
    | some m =>
      exfalso
      rw [hb, processorPhase_err env tel spec st2 eff2 m h hx] at herr
      exact absurd herr (by simp)
    | none =>
      rw [hb, processorPhase_run env tel spec st2 eff2 h hx]
      exact ⟨rfl, rfl⟩

theorem C6_processor_selection_witness :
    (bootstrap envDefault telFull ⟨none, 0⟩).effects.processors = [ProcKind.immediate] ∧
    (bootstrap envDefault telFull ⟨none, 0⟩).effects.exporterBuilt = true :=
  (C6_processor_selection envDefault telFull ⟨none, 0⟩ trFull specFull rfl rfl
    (by decide)).2 (by decide)

theorem C8_propagator_order_witness :
    [PropDesc.builtin "W3CTraceContextPropagator", PropDesc.custom "my-mod" "MyProp" none] =
      [PropagatorEntry.name "W3CTraceContextPropagator",
        PropagatorEntry.custom "my-mod" "MyProp" none].map descOf :=
  (C8_propagator_order envDefault
      [PropagatorEntry.name "W3CTraceContextPropagator",
        PropagatorEntry.custom "my-mod" "MyProp" none]
      [PropDesc.builtin "W3CTraceContextPropagator", PropDesc.custom "my-mod" "MyProp" none]
      rfl).1

end Telemetry
